import Mathlib

/-!
# Verification of the darkchan imageboard backend core

Shallow embedding of the storage pipeline (`utils/fileStorage.js`), the
orphan reconciler (`utils/cleanup.js`), the tripcode generator
(`utils/fileUtils.js`), request validation (`utils/validations.js`) and the
thread controller (`controllers/thread.js`, Supabase-backed variant), with
theorems settling the behavioural claims about them.

External collaborators (the Node `crypto` digest, the `sharp` resizer, the
Supabase storage/database service, the WHATWG URL parser) are modelled as
explicit oracles passed in environments; everything the repository itself
does is translated operation by operation.
-/

namespace Darkchan

/-! ## String utilities

JavaScript string operations used by the source, written over `List Char`
so that every definition reduces inside the kernel. -/

/-- `s.split(c)` for a single-character separator, JS semantics
(`"".split(c) = ['']`). -/
def splitCharAux (c : Char) : List Char → List (List Char)
  | [] => [[]]
  | x :: xs =>
    let r := splitCharAux c xs
    if x = c then [] :: r
    else
      match r with
      | [] => [[x]]
      | h :: t => (x :: h) :: t

/-- JS `String.prototype.split` with a one-character separator. -/
def splitChar (c : Char) (s : String) : List String :=
  (splitCharAux c s.toList).map String.mk

/-- JS `String.prototype.startsWith`. -/
def strStartsWith (s p : String) : Bool :=
  p.toList.isPrefixOf s.toList

/-- `s.substring(0, n)` (also Node's `take`-like prefix). -/
def strTake (n : Nat) (s : String) : String :=
  String.mk (s.toList.take n)

/-- Character-wise map over a string (models chained `replace(/x/g, y)`). -/
def strMap (f : Char → Char) (s : String) : String :=
  String.mk (s.toList.map f)

/-- JS whitespace test for the characters relevant to `trim`. -/
def isJsWhitespace (c : Char) : Bool :=
  c == ' ' || c == '\t' || c == '\n' || c == '\r'

/-- JS `String.prototype.trim`. -/
def strTrim (s : String) : String :=
  String.mk (((s.toList.dropWhile isJsWhitespace).reverse.dropWhile
      isJsWhitespace).reverse)

/-- Last element of a `/`-split, used to mirror
`pathParts[pathParts.length - 1]`. -/
def lastSegment (s : String) : String :=
  (splitChar '/' s).getLastD ""

/-- Node `path.extname` restricted to plain basenames (no directory
separators), as the source always applies it to bare file names:
the suffix from the final dot, with no extension for dotless names and
for names whose only dot is the leading one. -/
def extname (s : String) : String :=
  let parts := splitChar '.' s
  if parts.length ≤ 1 then ""
  else if parts.length = 2 && parts.headD "" = "" then ""
  else "." ++ parts.getLastD ""

/-- JS truthiness of an optional string (`null`/`undefined`/`""` falsy). -/
def optTruthy (o : Option String) : Bool :=
  match o with
  | none => false
  | some s => s != ""

/-- Drops everything up to and including the first occurrence of `pat`,
returning `none` when `pat` does not occur. -/
def dropThrough (pat : List Char) : List Char → Option (List Char)
  | [] => none
  | x :: xs =>
    if pat.isPrefixOf (x :: xs) then some ((x :: xs).drop pat.length)
    else dropThrough pat xs

/-- Modelled from the WHATWG URL parser used via `new URL(u).pathname`
(an external platform library): for URLs of the shape
`scheme://host/path…` the pathname is the part from the first `/` after
the authority; a string with no `://` is rejected (`new URL` throws). -/
def urlPathname (u : String) : Option String :=
  match dropThrough ("://".toList) u.toList with
  | none => none
  | some rest =>
    let path := rest.dropWhile (fun c => c != '/')
    match path with
    | [] => some "/"
    | _ => some (String.mk path)

/-! ## Tripcode generator (`utils/fileUtils.js`)

The SHA-256/base64 digest comes from the external Node `crypto` module and
is passed in as an oracle `digest : String → String`; everything after the
digest (truncation to ten characters, the three character substitutions)
is translated from the source. -/

/-- The character substitutions `+→.`, `/→,`, `=→-` applied to the
truncated digest. -/
def tripSub (c : Char) : Char :=
  if c = '+' then '.'
  else if c = '/' then ','
  else if c = '=' then '-'
  else c

/-- `generateTripcode(password)`: falsy password (absent or empty) yields
`null`; otherwise the salted digest is truncated to ten characters and
made identifier-safe. -/
def generateTripcode (digest : String → String) (salt : String)
    (password : Option String) : Option String :=
  match password with
  | none => none
  | some p =>
    if p = "" then none
    else some (strMap tripSub (strTake 10 (digest (p ++ salt))))

/-- `verifyTripcode(password, tripcode)`: recomputes and compares with
strict equality. -/
def verifyTripcode (digest : String → String) (salt : String)
    (password : Option String) (tripcode : Option String) : Bool :=
  generateTripcode digest salt password == tripcode

/-! ## Object storage model (`utils/fileStorage.js`)

Supabase storage is a key/value service: each bucket is modelled by the
list of keys it currently holds (object contents play no role in any
claim).  `upload`, `remove` and `getPublicUrl` follow the Supabase client
contract: `upload`/`remove` return an error value instead of throwing, and
the possibility of a storage-layer error is an oracle in the environment. -/

def IMAGES_BUCKET : String := "board-images"

def THUMBNAILS_BUCKET : String := "board-thumbnails"

/-- Contents of the two storage buckets. -/
structure StorageState where
  images : List String
  thumbs : List String
deriving Repr, DecidableEq

/-- Supabase `getPublicUrl`: the project URL followed by the fixed public
object route, the bucket and the key. -/
def getPublicUrl (supabaseUrl bucket key : String) : String :=
  supabaseUrl ++ "/storage/v1/object/public/" ++ bucket ++ "/" ++ key

/-- The transient record returned by `uploadFile` (spec §3, "Uploaded File
Record"): `thumbnailPath` and `filePath` are public URLs, `storagePath`
the storage key of the original. -/
structure FileRecord where
  fileName : String
  fileSize : Nat
  fileType : String
  filePath : String
  thumbnailPath : Option String
  storagePath : String
deriving Repr, DecidableEq

/-- The multer file object consumed by `uploadFile`. -/
structure UFile where
  originalname : String
  mimetype : String
  size : Nat
  buffer : List Nat
deriving Repr, DecidableEq

/-- Environment of one `uploadFile` call: the configured project URL, the
`uuidv4()` drawn for this call, the `sharp(buffer).resize(w).toBuffer()`
oracle (`none` = the library threw), and the storage-error oracle for
`upload` keyed by bucket and key. -/
structure UploadEnv where
  supabaseUrl : String
  newUuid : String
  sharpResize : Nat → List Nat → Option (List Nat)
  uploadError : String → String → Bool

/-- The unique storage key `uploadFile` builds for a file: optional
`nsfw/` namespace prefix, fresh uuid, original extension (with the
`'unknown.jpg'` fallback for an empty original name). -/
def uploadKey (env : UploadEnv) (f : UFile) (isNsfw : Bool) : String :=
  (if isNsfw then "nsfw/" else "") ++
    (env.newUuid ++ extname (if f.originalname = "" then "unknown.jpg" else f.originalname))

/-- `uploadFile(file, isNsfw)` from `utils/fileStorage.js`: upload the
original under a fresh key (an upload error is thrown, caught by the outer
handler, and surfaces as `null` with nothing written); then, for
`image/*` MIME types only, derive a 200px-wide thumbnail and upload it
under the same key in the thumbnail bucket, swallowing any failure of
that stage; finally return the metadata record. -/
def uploadFile (env : UploadEnv) (st : StorageState) (file : Option UFile)
    (isNsfw : Bool) : StorageState × Option FileRecord :=
  match file with
  | none => (st, none)
  | some f =>
    let fileExt := extname (if f.originalname = "" then "unknown.jpg" else f.originalname)
    let fileName := env.newUuid ++ fileExt
    let storagePath := (if isNsfw then "nsfw/" else "") ++ fileName
    if env.uploadError IMAGES_BUCKET storagePath then (st, none)
    else
      let st1 : StorageState := { st with images := storagePath :: st.images }
      let publicUrl := getPublicUrl env.supabaseUrl IMAGES_BUCKET storagePath
      let isImage := strStartsWith f.mimetype "image/"
      let thumbStep : StorageState × Option String :=
        if isImage then
          match env.sharpResize 200 f.buffer with
          | none => (st1, none)
          | some _ =>
            let thumbnailPath := (if isNsfw then "nsfw/" else "") ++ fileName
            if env.uploadError THUMBNAILS_BUCKET thumbnailPath then (st1, none)
            else ({ st1 with thumbs := thumbnailPath :: st1.thumbs },
                  some (getPublicUrl env.supabaseUrl THUMBNAILS_BUCKET thumbnailPath))
        else (st1, none)
      (thumbStep.1,
       some { fileName := f.originalname
              fileSize := f.size
              fileType := f.mimetype
              filePath := publicUrl
              thumbnailPath := thumbStep.2
              storagePath := storagePath })

/-! ## `deleteFile` (`utils/fileStorage.js`) -/

/-- Storage-error oracle for `remove` calls, keyed by bucket and key. -/
structure DeleteEnv where
  removeError : String → String → Bool

/-- One `remove([key])` call: on an error value the bucket is untouched,
otherwise the object (if present) is gone.  Supabase returns the error
rather than throwing. -/
def removeKey (env : DeleteEnv) (bucket : String) (contents : List String)
    (key : String) : List String :=
  if env.removeError bucket key then contents
  else contents.filter (fun k => k != key)

/-- State after the first half of `deleteFile` (the original-object
removal guarded by `if (storagePath)`). -/
def afterOriginalRemove (env : DeleteEnv) (st : StorageState)
    (storagePath : Option String) : StorageState :=
  if optTruthy storagePath then
    { st with images := removeKey env IMAGES_BUCKET st.images (storagePath.getD "") }
  else st

/-- The `try` block of `deleteFile`: remove the original by its key, then
resolve the thumbnail argument — a value starting with `http` is parsed
as a URL (which can throw, the only throw site: the error carries the
state reached so far) and reduced to the last segment of its pathname —
and remove that key from the thumbnail bucket; return `true`. -/
def deleteFileTry (env : DeleteEnv) (st : StorageState)
    (storagePath thumbnailPath : Option String) :
    Except StorageState (StorageState × Bool) :=
  let st1 := afterOriginalRemove env st storagePath
  if optTruthy thumbnailPath then
    let tp := thumbnailPath.getD ""
    if strStartsWith tp "http" then
      match urlPathname tp with
      | none => .error st1
      | some pn =>
        let key := lastSegment pn
        .ok ({ st1 with thumbs := removeKey env THUMBNAILS_BUCKET st1.thumbs key }, true)
    else
      .ok ({ st1 with thumbs := removeKey env THUMBNAILS_BUCKET st1.thumbs tp }, true)
  else
    .ok (st1, true)

/-- `deleteFile(storagePath, thumbnailPath)`: the `try` block wrapped in
the catch-all handler, which logs and returns `false`. -/
def deleteFile (env : DeleteEnv) (st : StorageState)
    (storagePath thumbnailPath : Option String) : StorageState × Bool :=
  match deleteFileTry env st storagePath thumbnailPath with
  | .ok r => r
  | .error st1 => (st1, false)

/-! ## Orphan reconciler (`utils/cleanup.js`, `cleanupOrphanedFiles`) -/

/-- The set of referenced paths: the `storage_path` columns of threads and
posts, already filtered non-null by the query (`.not('storage_path','is',
null)`), with the loop's own truthiness check skipping empty strings. -/
def validPaths (threadPaths postPaths : List (Option String)) : List String :=
  ((threadPaths.filterMap id) ++ (postPaths.filterMap id)).filter (fun s => s != "")

/-- One bucket sweep of the reconciler: walk the listing, attempt a
`remove` for every key not in the valid set, keep the object when the
remove errors, and count the successful deletions. -/
def sweepBucket (env : DeleteEnv) (bucket : String) (valid : List String) :
    List String → List String × Nat
  | [] => ([], 0)
  | k :: ks =>
    let r := sweepBucket env bucket valid ks
    if valid.contains k then (k :: r.1, r.2)
    else if env.removeError bucket k then (k :: r.1, r.2)
    else (r.1, r.2 + 1)

/-- `cleanupOrphanedFiles()`: list both buckets, build the valid-path set
from threads and posts, sweep each bucket independently, and return the
final deleted count. -/
def cleanupOrphanedFiles (env : DeleteEnv) (st : StorageState)
    (threadPaths postPaths : List (Option String)) : StorageState × Nat :=
  let valid := validPaths threadPaths postPaths
  let imgSweep := sweepBucket env IMAGES_BUCKET valid st.images
  let thumbSweep := sweepBucket env THUMBNAILS_BUCKET valid st.thumbs
  ({ images := imgSweep.1, thumbs := thumbSweep.1 }, imgSweep.2 + thumbSweep.2)

/-! ## Relational store and controllers (`controllers/thread.js`,
Supabase-backed variant)

Threads and posts are rows; only the columns the delete endpoints read
are carried.  Database reads and row deletions are assumed to succeed
(their failure paths only re-throw into a 500 handler and are not the
subject of any claim). -/

structure ThreadRow where
  id : String
  tripcode : Option String
  storage_path : Option String
  thumbnail_path : Option String
deriving Repr, DecidableEq

structure PostRow where
  id : String
  thread_id : String
  tripcode : Option String
  storage_path : Option String
  thumbnail_path : Option String
deriving Repr, DecidableEq

structure DB where
  threads : List ThreadRow
  posts : List PostRow
deriving Repr, DecidableEq

/-- HTTP responses the controllers produce. -/
inductive ApiResult where
  | badRequest (msg : String)
  | notFound (msg : String)
  | forbidden (msg : String)
  | ok (msg : String)
deriving Repr, DecidableEq

/-- Environment of the delete endpoints: the digest/salt for tripcode
verification and the storage-error oracle for `deleteFile`. -/
structure AppEnv where
  digest : String → String
  salt : String
  del : DeleteEnv

/-- `.from('threads').select('*').eq('id', id).single()`. -/
def findThread (db : DB) (tid : String) : Option ThreadRow :=
  db.threads.find? (fun t => t.id == tid)

/-- `.from('posts').select('*').eq('id', id).single()`. -/
def findPost (db : DB) (pid : String) : Option PostRow :=
  db.posts.find? (fun p => p.id == pid)

/-- The file cleanup applied per row: `if (row.storage_path)` then
`deleteFile(row.storage_path, row.thumbnail_path)` (state only; the
best-effort boolean is discarded by the controller). -/
def rowFileCleanup (env : AppEnv) (st : StorageState)
    (storage_path thumbnail_path : Option String) : StorageState :=
  if optTruthy storage_path then
    (deleteFile env.del st storage_path thumbnail_path).1
  else st

/-- `deleteThread` (`controllers/thread.js`): password presence check,
row lookup (404), tripcode ownership check (403), then: delete the thread
row, best-effort-delete its file, best-effort-delete every post's file,
delete the posts, 200. -/
def deleteThread (env : AppEnv) (db : DB) (st : StorageState)
    (threadId password : String) : DB × StorageState × ApiResult :=
  if password = "" then (db, st, .badRequest "Password is required")
  else
    match findThread db threadId with
    | none => (db, st, .notFound "Thread not found")
    | some thread =>
      if !(optTruthy thread.tripcode &&
           verifyTripcode env.digest env.salt (some password) thread.tripcode) then
        (db, st, .forbidden "Invalid password")
      else
        let db1 : DB := { db with threads := db.threads.filter (fun t => t.id != threadId) }
        let st1 := rowFileCleanup env st thread.storage_path thread.thumbnail_path
        let threadPosts := db1.posts.filter (fun p => p.thread_id == threadId)
        let st2 := threadPosts.foldl
          (fun acc p => rowFileCleanup env acc p.storage_path p.thumbnail_path) st1
        let db2 : DB := { db1 with posts := db1.posts.filter (fun p => p.thread_id != threadId) }
        (db2, st2, .ok "Thread deleted successfully")

/-- `deletePost` (`controllers/thread.js`): same shape for a single post.
(The trailing `update_thread_counts` RPC touches only the counter columns
of the owning thread, which are not modelled.) -/
def deletePost (env : AppEnv) (db : DB) (st : StorageState)
    (postId password : String) : DB × StorageState × ApiResult :=
  if password = "" then (db, st, .badRequest "Password is required")
  else
    match findPost db postId with
    | none => (db, st, .notFound "Post not found")
    | some post =>
      if !(optTruthy post.tripcode &&
           verifyTripcode env.digest env.salt (some password) post.tripcode) then
        (db, st, .forbidden "Invalid password")
      else
        let db1 : DB := { db with posts := db.posts.filter (fun p => p.id != postId) }
        let st1 := rowFileCleanup env st post.storage_path post.thumbnail_path
        (db1, st1, .ok "Post deleted successfully")

/-! ## Request validation (`utils/validations.js`, `validateThread`)

The raw body as the middleware sees it, the Joi schema for thread
creation (abort-early: the first failing key is reported), and the
subsequent file-or-comment check. -/

/-- Raw request body fields (absent key = `none`).  `is_nsfw` is carried
as a boolean, the type Joi coerces it to. -/
structure ReqBody where
  subject : Option String
  comment : Option String
  name : Option String
  password : Option String
  is_nsfw : Option Bool
deriving Repr, DecidableEq

/-- Body after Joi validation, with defaults applied. -/
structure CleanBody where
  subject : Option String
  comment : String
  name : String
  password : Option String
  is_nsfw : Bool
deriving Repr, DecidableEq

/-- The thread-creation Joi schema:
`subject` optional, up to 100, empty allowed; `comment` required,
non-empty, up to 10000; `name` up to 50 (empty not allowed), default
`'Anonymous'`; `password` anything (empty/null allowed); `is_nsfw`
boolean default `false`. -/
def joiThread (b : ReqBody) : Except String CleanBody :=
  if (match b.subject with
      | some s => decide (s.length > 100)
      | none => false) then
    .error "subject length must be less than or equal to 100 characters long"
  else
    match b.comment with
    | none => .error "comment is required"
    | some c =>
      if c = "" then .error "comment is not allowed to be empty"
      else if decide (c.length > 10000) then
        .error "comment length must be less than or equal to 10000 characters long"
      else if (match b.name with
               | some n => n == "" || decide (n.length > 50)
               | none => false) then
        .error "name is invalid"
      else
        .ok { subject := b.subject
              comment := c
              name := b.name.getD "Anonymous"
              password := b.password
              is_nsfw := b.is_nsfw.getD false }

/-- Outcome of the `validateThread` middleware. -/
inductive ValResult where
  | validationError (details : String)
  | fileOrCommentError
  | passed (value : CleanBody)
deriving Repr, DecidableEq

/-- `validateThread`: Joi first (a schema error is a 400 with details),
then the file-or-comment check
`if (!req.file && (!req.body.comment || req.body.comment.trim() === ''))`
against the raw body, then hand the validated value on. -/
def validateThread (b : ReqBody) (hasFile : Bool) : ValResult :=
  match joiThread b with
  | .error d => .validationError d
  | .ok value =>
    if !hasFile &&
       (match b.comment with
        | none => true
        | some c => strTrim c = "") then
      .fileOrCommentError
    else .passed value

/-! ## `createThread` row construction (`controllers/thread.js`,
Supabase-backed variant)

Only the row written to `threads` is modelled; the insert itself is an
append that succeeds (its failure path merely compensates and responds
500, the subject of no claim here). -/

/-- The row inserted into `threads`. -/
structure ThreadInsert where
  id : String
  subject : Option String
  comment : String
  name : String
  tripcode : Option String
  is_nsfw : Bool
  file_name : Option String
  file_path : Option String
  file_size : Option Nat
  file_type : Option String
  thumbnail_path : Option String
  storage_path : Option String
  images_count : Option Nat
deriving Repr, DecidableEq

/-- Per-request environment of `createThread`. -/
structure CreateEnv where
  digest : String → String
  salt : String
  newThreadId : String

/-- `createThread` body: tripcode from the password when one is given,
`subject || null`, `name || 'Anonymous'`, and the six file-metadata
columns set only when the middleware attached `fileData`. -/
def createThread (env : CreateEnv) (value : CleanBody)
    (fileData : Option FileRecord) : ThreadInsert :=
  let tripcode :=
    if optTruthy value.password then
      generateTripcode env.digest env.salt value.password
    else none
  let base : ThreadInsert :=
    { id := env.newThreadId
      subject := (match value.subject with
                  | some s => if s = "" then none else some s
                  | none => none)
      comment := value.comment
      name := if value.name = "" then "Anonymous" else value.name
      tripcode := tripcode
      is_nsfw := value.is_nsfw
      file_name := none
      file_path := none
      file_size := none
      file_type := none
      thumbnail_path := none
      storage_path := none
      images_count := none }
  match fileData with
  | none => base
  | some fd =>
    { base with
      file_name := some fd.fileName
      file_path := some fd.filePath
      file_size := some fd.fileSize
      file_type := some fd.fileType
      thumbnail_path := fd.thumbnailPath
      storage_path := some fd.storagePath
      images_count := some 1 }

/-! ## Concrete instances used by witnesses and counterexamples -/

/-- A healthy store whose image resizer throws. -/
def wEnvC2 : UploadEnv :=
  { supabaseUrl := "https://proj.supabase.co"
    newUuid := "u2"
    sharpResize := fun _ _ => none
    uploadError := fun _ _ => false }

def wFileC2 : UFile :=
  { originalname := "pic.jpg", mimetype := "image/jpeg", size := 3, buffer := [1, 2, 3] }

/-- A fully healthy storage environment with a working resizer. -/
def wEnvC8 : UploadEnv :=
  { supabaseUrl := "https://proj.supabase.co"
    newUuid := "u8"
    sharpResize := fun _ b => some b
    uploadError := fun _ _ => false }

/-- A storage whose removals all succeed. -/
def wDelOk : DeleteEnv := { removeError := fun _ _ => false }

/-- A storage whose removals all error. -/
def wDelErr : DeleteEnv := { removeError := fun _ _ => true }

def wTh10 : ThreadRow :=
  { id := "t1", tripcode := none, storage_path := some "k1", thumbnail_path := none }

def wPo10 : PostRow :=
  { id := "p1", thread_id := "t1", tripcode := none, storage_path := some "k1",
    thumbnail_path := none }

def wDb10 : DB := { threads := [wTh10], posts := [wPo10] }

def wApp10 : AppEnv := { digest := fun s => s, salt := "salt", del := wDelOk }

/-! ## Theorems -/

/-- Sweep characterization: a bucket sweep keeps exactly the keys that are
referenced or whose removal errored, and counts the successful removals. -/
theorem sweepBucket_eq (env : DeleteEnv) (bucket : String) (valid : List String) :
    ∀ ks : List String,
      sweepBucket env bucket valid ks =
        (ks.filter (fun k => valid.contains k || env.removeError bucket k),
         (ks.filter (fun k => !valid.contains k && !env.removeError bucket k)).length) := by
  intro ks
  induction ks with
  | nil => rfl
  | cons k ks ih =>
    simp only [sweepBucket, ih, List.filter_cons]
    cases hc : valid.contains k <;> cases he : env.removeError bucket k <;> simp [hc, he]

/-- C3: one run of the Orphan Reconciler deletes exactly those listed
objects whose key is absent from the set of `storage_path` values of
existing threads and posts (each delete attempted independently, an
errored delete leaving its object in place), retains every referenced
object, and returns the count of successful deletions. -/
theorem cleanupOrphanedFiles_deletes_exactly_orphans :
    ∀ (env : DeleteEnv) (st : StorageState) (threadPaths postPaths : List (Option String)),
      cleanupOrphanedFiles env st threadPaths postPaths =
        ({ images := st.images.filter (fun k =>
              (validPaths threadPaths postPaths).contains k || env.removeError IMAGES_BUCKET k)
           thumbs := st.thumbs.filter (fun k =>
              (validPaths threadPaths postPaths).contains k || env.removeError THUMBNAILS_BUCKET k) },
         (st.images.filter (fun k =>
              !(validPaths threadPaths postPaths).contains k && !env.removeError IMAGES_BUCKET k)).length +
         (st.thumbs.filter (fun k =>
              !(validPaths threadPaths postPaths).contains k && !env.removeError THUMBNAILS_BUCKET k)).length) := by
  intro env st threadPaths postPaths
  simp only [cleanupOrphanedFiles, sweepBucket_eq]

/-- C5: for every non-empty password the generated tripcode verifies
against the password that produced it, and a falsy (absent or empty)
password generates no token — for any digest oracle and salt. -/
theorem tripcode_roundtrip :
    ∀ (digest : String → String) (salt p : String), p ≠ "" →
      verifyTripcode digest salt (some p) (generateTripcode digest salt (some p)) = true ∧
      generateTripcode digest salt none = none ∧
      generateTripcode digest salt (some "") = none := by
  intro digest salt p hp
  refine ⟨?_, rfl, rfl⟩
  simp [verifyTripcode, generateTripcode, hp]

/-- Witness for `tripcode_roundtrip` at digest = identity, salt `"salt"`,
password `"pw"`. -/
theorem tripcode_roundtrip_witness :
    "pw" ≠ "" ∧
    (verifyTripcode (fun s => s) "salt" (some "pw")
        (generateTripcode (fun s => s) "salt" (some "pw")) = true ∧
     generateTripcode (fun s => s) "salt" none = none ∧
     generateTripcode (fun s => s) "salt" (some "") = none) :=
  ⟨by decide, tripcode_roundtrip (fun s => s) "salt" "pw" (by decide)⟩

/-- C2: an error while uploading the original aborts `uploadFile` with no
record and no object written; a failure of the thumbnail stage (the
resizer throwing, or the thumbnail upload erroring) is non-fatal — the
call still returns the metadata record, with no thumbnail field and the
original upload kept. -/
theorem uploadFile_original_fatal_thumbnail_nonfatal :
    ∀ (env : UploadEnv) (st : StorageState) (f : UFile) (nsfw : Bool),
      (env.uploadError IMAGES_BUCKET (uploadKey env f nsfw) = true →
        uploadFile env st (some f) nsfw = (st, none)) ∧
      (env.uploadError IMAGES_BUCKET (uploadKey env f nsfw) = false →
       (env.sharpResize 200 f.buffer = none ∨
        env.uploadError THUMBNAILS_BUCKET (uploadKey env f nsfw) = true) →
        uploadFile env st (some f) nsfw =
          ({ st with images := uploadKey env f nsfw :: st.images },
           some { fileName := f.originalname
                  fileSize := f.size
                  fileType := f.mimetype
                  filePath := getPublicUrl env.supabaseUrl IMAGES_BUCKET (uploadKey env f nsfw)
                  thumbnailPath := none
                  storagePath := uploadKey env f nsfw })) := by
  intro env st f nsfw
  constructor
  · intro h
    simp only [uploadKey] at h
    simp [uploadFile, h]
  · intro h hthumb
    simp only [uploadKey] at h hthumb
    simp only [uploadFile]
    rw [if_neg (by simp [h])]
    cases hI : strStartsWith f.mimetype "image/"
    · simp [uploadKey, hI]
    · rcases hthumb with hS | hT
      · simp [uploadKey, hI, hS]
      · cases hS : env.sharpResize 200 f.buffer
        · simp [uploadKey, hI, hS]
        · simp [uploadKey, hI, hS, hT]

/-- Witness for `uploadFile_original_fatal_thumbnail_nonfatal`: a failing
resizer on an otherwise healthy store. -/
theorem uploadFile_original_fatal_thumbnail_nonfatal_witness :
    ((wEnvC2.uploadError IMAGES_BUCKET (uploadKey wEnvC2 wFileC2 false) = false) ∧
     (wEnvC2.sharpResize 200 wFileC2.buffer = none ∨
      wEnvC2.uploadError THUMBNAILS_BUCKET (uploadKey wEnvC2 wFileC2 false) = true)) ∧
    uploadFile wEnvC2 ⟨[], []⟩ (some wFileC2) false =
      ({ images := [uploadKey wEnvC2 wFileC2 false], thumbs := [] },
       some { fileName := wFileC2.originalname
              fileSize := wFileC2.size
              fileType := wFileC2.mimetype
              filePath := getPublicUrl wEnvC2.supabaseUrl IMAGES_BUCKET (uploadKey wEnvC2 wFileC2 false)
              thumbnailPath := none
              storagePath := uploadKey wEnvC2 wFileC2 false }) :=
  ⟨⟨by decide, Or.inl rfl⟩,
   (uploadFile_original_fatal_thumbnail_nonfatal wEnvC2 ⟨[], []⟩ wFileC2 false).2
     (by decide) (Or.inl rfl)⟩

/-- C7 (counterexample): an upload whose declared MIME type is
`image/jpeg` but whose thumbnail derivation throws completes with **no**
thumbnail record, so `image/jpeg` does not always yield one. -/
theorem uploadFile_jpeg_without_thumbnail :
    wFileC2.mimetype = "image/jpeg" ∧
    (uploadFile wEnvC2 ⟨[], []⟩ (some wFileC2) false).2.map (fun r => r.thumbnailPath) =
      some none := by
  exact ⟨rfl, by decide⟩

/-- C7 (amended): when the original upload succeeds, `uploadFile` returns
a record that carries a thumbnail exactly when the MIME type is in the
image family **and** the 200px-wide resize and the thumbnail upload both
succeed; in particular a non-image MIME type never yields a thumbnail. -/
theorem uploadFile_thumbnail_iff :
    ∀ (env : UploadEnv) (st : StorageState) (f : UFile) (nsfw : Bool),
      env.uploadError IMAGES_BUCKET (uploadKey env f nsfw) = false →
      ∃ r, (uploadFile env st (some f) nsfw).2 = some r ∧
        (r.thumbnailPath.isSome = true ↔
          (strStartsWith f.mimetype "image/" = true ∧
           (env.sharpResize 200 f.buffer).isSome = true ∧
           env.uploadError THUMBNAILS_BUCKET (uploadKey env f nsfw) = false)) := by
  intro env st f nsfw h
  simp only [uploadKey] at h ⊢
  simp only [uploadFile]
  rw [if_neg (by simp [h])]
  cases hI : strStartsWith f.mimetype "image/"
  · exact ⟨_, rfl, by simp [hI]⟩
  · cases hS : env.sharpResize 200 f.buffer
    · exact ⟨_, rfl, by simp [hI, hS]⟩
    · cases hT : env.uploadError THUMBNAILS_BUCKET
        ((if nsfw then "nsfw/" else "") ++
          (env.newUuid ++ extname (if f.originalname = "" then "unknown.jpg" else f.originalname)))
      · simp [hI, hS, hT]
      · simp [hI, hS, hT]

/-- Witness for `uploadFile_thumbnail_iff`: healthy store, failing
resizer, a record with no thumbnail. -/
theorem uploadFile_thumbnail_iff_witness :
    wEnvC2.uploadError IMAGES_BUCKET (uploadKey wEnvC2 wFileC2 false) = false ∧
    ∃ r, (uploadFile wEnvC2 ⟨[], []⟩ (some wFileC2) false).2 = some r ∧
      (r.thumbnailPath.isSome = true ↔
        (strStartsWith wFileC2.mimetype "image/" = true ∧
         (wEnvC2.sharpResize 200 wFileC2.buffer).isSome = true ∧
         wEnvC2.uploadError THUMBNAILS_BUCKET (uploadKey wEnvC2 wFileC2 false) = false)) :=
  ⟨by decide, uploadFile_thumbnail_iff wEnvC2 ⟨[], []⟩ wFileC2 false (by decide)⟩

/-- C8: on the fully successful image path, the single generated key —
nsfw prefix, fresh uuid and original extension included — is the key of
the new object in **both** buckets and the `storagePath` of the returned
record; the two objects differ only by bucket. -/
theorem uploadFile_single_key_both_buckets :
    ∀ (env : UploadEnv) (st : StorageState) (f : UFile) (nsfw : Bool),
      env.uploadError IMAGES_BUCKET (uploadKey env f nsfw) = false →
      strStartsWith f.mimetype "image/" = true →
      (env.sharpResize 200 f.buffer).isSome = true →
      env.uploadError THUMBNAILS_BUCKET (uploadKey env f nsfw) = false →
      uploadFile env st (some f) nsfw =
        ({ images := uploadKey env f nsfw :: st.images
           thumbs := uploadKey env f nsfw :: st.thumbs },
         some { fileName := f.originalname
                fileSize := f.size
                fileType := f.mimetype
                filePath := getPublicUrl env.supabaseUrl IMAGES_BUCKET (uploadKey env f nsfw)
                thumbnailPath :=
                  some (getPublicUrl env.supabaseUrl THUMBNAILS_BUCKET (uploadKey env f nsfw))
                storagePath := uploadKey env f nsfw }) := by
  intro env st f nsfw h hI hS hT
  simp only [uploadKey] at h hT ⊢
  cases hS' : env.sharpResize 200 f.buffer with
  | none => rw [hS'] at hS; simp at hS
  | some buf =>
    simp only [uploadFile]
    rw [if_neg (by simp [h])]
    simp [hI, hS', hT]

/-- Witness for `uploadFile_single_key_both_buckets` on a healthy
resizer and store. -/
theorem uploadFile_single_key_both_buckets_witness :
    (wEnvC8.uploadError IMAGES_BUCKET (uploadKey wEnvC8 wFileC2 true) = false ∧
     strStartsWith wFileC2.mimetype "image/" = true ∧
     (wEnvC8.sharpResize 200 wFileC2.buffer).isSome = true ∧
     wEnvC8.uploadError THUMBNAILS_BUCKET (uploadKey wEnvC8 wFileC2 true) = false) ∧
    uploadFile wEnvC8 ⟨[], []⟩ (some wFileC2) true =
      ({ images := [uploadKey wEnvC8 wFileC2 true]
         thumbs := [uploadKey wEnvC8 wFileC2 true] },
       some { fileName := wFileC2.originalname
              fileSize := wFileC2.size
              fileType := wFileC2.mimetype
              filePath := getPublicUrl wEnvC8.supabaseUrl IMAGES_BUCKET (uploadKey wEnvC8 wFileC2 true)
              thumbnailPath :=
                some (getPublicUrl wEnvC8.supabaseUrl THUMBNAILS_BUCKET (uploadKey wEnvC8 wFileC2 true))
              storagePath := uploadKey wEnvC8 wFileC2 true }) :=
  ⟨⟨by decide, by decide, by decide, by decide⟩,
   uploadFile_single_key_both_buckets wEnvC8 ⟨[], []⟩ wFileC2 true
     (by decide) (by decide) (by decide) (by decide)⟩

/-- C9: `deleteFile` is best-effort and never raises.  (i) The one
operation in its body that can throw — URL parsing of the thumbnail
argument — is caught: the call still returns normally (with `false`),
the original's removal already performed.  (ii) The two removals are
independent: even when the original's removal errors, the thumbnail
removal is still attempted and succeeds whenever the store lets it.
(iii) Storage-layer removal errors are only logged: with both removals
erroring the call returns `(st, true)` — no error reaches the caller. -/
theorem deleteFile_best_effort :
    ∀ (env : DeleteEnv) (st : StorageState) (sp : Option String),
      (∀ u : String, u ≠ "" → strStartsWith u "http" = true → urlPathname u = none →
        deleteFileTry env st sp (some u) = .error (afterOriginalRemove env st sp) ∧
        deleteFile env st sp (some u) = (afterOriginalRemove env st sp, false)) ∧
      (∀ k : String, k ≠ "" → strStartsWith k "http" = false →
        env.removeError THUMBNAILS_BUCKET k = false →
        (deleteFile env st sp (some k)).1.thumbs =
          (afterOriginalRemove env st sp).thumbs.filter (fun x => x != k) ∧
        (deleteFile env st sp (some k)).2 = true) ∧
      (∀ s k : String, s ≠ "" → k ≠ "" → strStartsWith k "http" = false →
        env.removeError IMAGES_BUCKET s = true →
        env.removeError THUMBNAILS_BUCKET k = true →
        deleteFile env st (some s) (some k) = (st, true)) := by
  intro env st sp
  refine ⟨?_, ?_, ?_⟩
  · intro u hu hhttp hparse
    have h1 : deleteFileTry env st sp (some u) = .error (afterOriginalRemove env st sp) := by
      simp [deleteFileTry, optTruthy, hu, hhttp, hparse]
    exact ⟨h1, by simp [deleteFile, h1]⟩
  · intro k hk hhttp hrem
    have h1 : deleteFileTry env st sp (some k) =
        .ok ({ afterOriginalRemove env st sp with
                 thumbs := (afterOriginalRemove env st sp).thumbs.filter (fun x => x != k) },
             true) := by
      simp [deleteFileTry, optTruthy, hk, hhttp, removeKey, hrem]
    simp [deleteFile, h1]
  · intro s k hs hk hhttp hrs hrk
    obtain ⟨imgs, ths⟩ := st
    have h1 : deleteFileTry env ⟨imgs, ths⟩ (some s) (some k) = .ok (⟨imgs, ths⟩, true) := by
      simp [deleteFileTry, optTruthy, hs, hk, hhttp, afterOriginalRemove, removeKey, hrs, hrk]
    simp [deleteFile, h1]

/-- Witness for `deleteFile_best_effort`: all three clauses exercised on
a store holding one object per bucket, with an everything-errors store
for the third. -/
theorem deleteFile_best_effort_witness :
    (("httpx" ≠ "" ∧ strStartsWith "httpx" "http" = true ∧ urlPathname "httpx" = none) ∧
      deleteFile wDelOk ⟨["a"], ["b"]⟩ (some "a") (some "httpx") =
        (afterOriginalRemove wDelOk ⟨["a"], ["b"]⟩ (some "a"), false)) ∧
    (deleteFile wDelOk ⟨["a"], ["b"]⟩ (some "a") (some "b")).1.thumbs =
      (afterOriginalRemove wDelOk ⟨["a"], ["b"]⟩ (some "a")).thumbs.filter (fun x => x != "b") ∧
    deleteFile wDelErr ⟨["a"], ["b"]⟩ (some "a") (some "b") = (⟨["a"], ["b"]⟩, true) :=
  ⟨⟨⟨by decide, by decide, by decide⟩,
    ((deleteFile_best_effort wDelOk ⟨["a"], ["b"]⟩ (some "a")).1 "httpx"
      (by decide) (by decide) (by decide)).2⟩,
   ((deleteFile_best_effort wDelOk ⟨["a"], ["b"]⟩ (some "a")).2.1 "b"
      (by decide) (by decide) (by decide)).1,
   (deleteFile_best_effort wDelErr ⟨["a"], ["b"]⟩ (some "a")).2.2 "a" "b"
      (by decide) (by decide) (by decide) (by decide) (by decide)⟩

/-- C10: a thread or post stored without a tripcode can never be deleted:
for every non-empty password both delete endpoints answer with the
authorization error, the database rows and both buckets untouched. -/
theorem delete_without_tripcode_always_forbidden :
    ∀ (env : AppEnv) (db : DB) (st : StorageState) (tid pid p : String)
      (th : ThreadRow) (po : PostRow),
      findThread db tid = some th → th.tripcode = none →
      findPost db pid = some po → po.tripcode = none →
      p ≠ "" →
      deleteThread env db st tid p = (db, st, .forbidden "Invalid password") ∧
      deletePost env db st pid p = (db, st, .forbidden "Invalid password") := by
  intro env db st tid pid p th po hth htrip hpo hptrip hp
  constructor
  · simp [deleteThread, hp, hth, htrip, optTruthy]
  · simp [deletePost, hp, hpo, hptrip, optTruthy]

/-- Witness for `delete_without_tripcode_always_forbidden` on a
one-thread, one-post store, both anonymous. -/
theorem delete_without_tripcode_always_forbidden_witness :
    (findThread wDb10 "t1" = some wTh10 ∧ wTh10.tripcode = none ∧
     findPost wDb10 "p1" = some wPo10 ∧ wPo10.tripcode = none ∧ ("guess" : String) ≠ "") ∧
    deleteThread wApp10 wDb10 ⟨["k1"], ["k1"]⟩ "t1" "guess" =
      (wDb10, ⟨["k1"], ["k1"]⟩, .forbidden "Invalid password") ∧
    deletePost wApp10 wDb10 ⟨["k1"], ["k1"]⟩ "p1" "guess" =
      (wDb10, ⟨["k1"], ["k1"]⟩, .forbidden "Invalid password") :=
  ⟨⟨by decide, by decide, by decide, by decide, by decide⟩,
   delete_without_tripcode_always_forbidden wApp10 wDb10 ⟨["k1"], ["k1"]⟩ "t1" "p1" "guess"
     wTh10 wPo10 (by decide) (by decide) (by decide) (by decide) (by decide)⟩

/-! ## Concrete bug exhibits -/

/-- Healthy store and resizer for the NSFW upload/delete round trip. -/
def c1Env : UploadEnv :=
  { supabaseUrl := "https://proj.supabase.co"
    newUuid := "u1"
    sharpResize := fun _ b => some b
    uploadError := fun _ _ => false }

def c1File : UFile :=
  { originalname := "cat.jpg", mimetype := "image/jpeg", size := 3, buffer := [1, 2, 3] }

/-- The thumbnail URL `uploadFile` returns for the NSFW upload above. -/
def c1ThumbUrl : String :=
  "https://proj.supabase.co/storage/v1/object/public/board-thumbnails/nsfw/u1.jpg"

/-- C1: an NSFW `image/jpeg` upload into empty buckets followed by
`deleteFile` with the `storagePath` and `thumbnailPath` of the returned
record removes the original but **leaves the thumbnail object**
`nsfw/u1.jpg` listed in the thumbnail bucket: `deleteFile` reduces the
thumbnail URL to the last path segment `u1.jpg`, losing the `nsfw/`
namespace prefix of the stored key. -/
theorem upload_then_delete_leaves_nsfw_thumbnail :
    (uploadFile c1Env ⟨[], []⟩ (some c1File) true).2.map
        (fun r => (r.storagePath, r.thumbnailPath)) =
      some ("nsfw/u1.jpg", some c1ThumbUrl) ∧
    deleteFile wDelOk (uploadFile c1Env ⟨[], []⟩ (some c1File) true).1
        (some "nsfw/u1.jpg") (some c1ThumbUrl) =
      ({ images := [], thumbs := ["nsfw/u1.jpg"] }, true) := by
  decide

def c4Env : AppEnv := { digest := fun s => s, salt := "salt", del := wDelOk }

/-- Thread `t1`, owned by the tripcode of password `"pw"` (identity
digest), carrying an NSFW file. -/
def c4Thread : ThreadRow :=
  { id := "t1"
    tripcode := some "pwsalt"
    storage_path := some "nsfw/u1.jpg"
    thumbnail_path := some c1ThumbUrl }

/-- A reply in `t1` carrying a non-NSFW file. -/
def c4Post : PostRow :=
  { id := "p1"
    thread_id := "t1"
    tripcode := none
    storage_path := some "u2.jpg"
    thumbnail_path :=
      some "https://proj.supabase.co/storage/v1/object/public/board-thumbnails/u2.jpg" }

def c4DB : DB := { threads := [c4Thread], posts := [c4Post] }

def c4St : StorageState :=
  { images := ["nsfw/u1.jpg", "u2.jpg"], thumbs := ["nsfw/u1.jpg", "u2.jpg"] }

/-- C4: with a wrong password `deleteThread` answers the authorization
error and deletes nothing; with the correct password it removes the
thread row, its post, both originals and the non-NSFW thumbnail — but
the NSFW thumbnail object `nsfw/u1.jpg` **survives in storage**, because
`deleteFile` loses the `nsfw/` prefix when reducing the stored thumbnail
URL to a key. -/
theorem deleteThread_nsfw_thumbnail_survives :
    deleteThread c4Env c4DB c4St "t1" "bad" =
      (c4DB, c4St, .forbidden "Invalid password") ∧
    deleteThread c4Env c4DB c4St "t1" "pw" =
      ({ threads := [], posts := [] },
       { images := [], thumbs := ["nsfw/u1.jpg"] },
       .ok "Thread deleted successfully") := by
  decide

def c6CreateEnv : CreateEnv :=
  { digest := fun s => s, salt := "salt", newThreadId := "tid1" }

/-- The validated value for body `{comment: "hello"}`. -/
def c6Value : CleanBody :=
  { subject := none, comment := "hello", name := "Anonymous", password := none,
    is_nsfw := false }

/-- The thread row created from `c6Value` with no file attached. -/
def c6Row : ThreadInsert :=
  { id := "tid1"
    subject := none
    comment := "hello"
    name := "Anonymous"
    tripcode := none
    is_nsfw := false
    file_name := none
    file_path := none
    file_size := none
    file_type := none
    thumbnail_path := none
    storage_path := none
    images_count := none }

/-- C6: a request with a file attached and no comment is **rejected** by
the Joi schema (`comment` is unconditionally required), so the
file-or-comment fallback is unreachable for it; an empty comment with no
file is likewise a validation error; a non-empty comment with no file
passes and `createThread` inserts a row with every file-metadata column
absent. -/
theorem validateThread_rejects_file_without_comment :
    validateThread { subject := none, comment := none, name := none, password := none,
                     is_nsfw := none } true =
      .validationError "comment is required" ∧
    validateThread { subject := none, comment := some "", name := none, password := none,
                     is_nsfw := none } false =
      .validationError "comment is not allowed to be empty" ∧
    validateThread { subject := none, comment := some "hello", name := none, password := none,
                     is_nsfw := none } false = .passed c6Value ∧
    createThread c6CreateEnv c6Value none = c6Row ∧
    (c6Row.file_name = none ∧ c6Row.file_path = none ∧ c6Row.file_size = none ∧
     c6Row.file_type = none ∧ c6Row.thumbnail_path = none ∧ c6Row.storage_path = none ∧
     c6Row.images_count = none) := by
  decide

end Darkchan
